import Mathlib

/-!
Verification of the tool-calling agent in `agent.py` (an OpenAI-compatible
tool-call loop).  The Python source is shallowly embedded: pure string and
list manipulation is translated directly; the external model endpoint is an
oracle `Nat → ModelResponse` (the response to the n-th API invocation of one
`chat` call); tool handlers are total functions into `Except String String`
(a Python exception raised by the handler is an `Except.error`); the mutable
`self.messages` list is explicit state threaded through the loop.
-/

namespace Agent

/-- Parsed JSON argument dictionaries are abstracted as association lists;
`[]` plays the role of the empty dict `{}` that `json.JSONDecodeError`
handling falls back to. -/
abbrev Args := List (String × String)

/-- A tool handler: receives the parsed arguments, returns the result text or
an error description (a raised Python exception, stringified). -/
abbrev Handler := Args → Except String String

/-- One entry of the model response `message.tool_calls` list: call id, tool
name, and the raw (unparsed) JSON argument payload. -/
structure ToolCall where
  id : String
  name : String
  arguments : String
deriving DecidableEq, Repr

/-- The relevant part of one chat-completions response message: content text
and the (possibly empty) tool-call list.  Python's `None` content is
represented by `""`; a `None`/empty `tool_calls` field by `[]`, matching the
falsy test `if not message.tool_calls`. -/
structure ModelResponse where
  content : String
  tool_calls : List ToolCall
deriving DecidableEq, Repr

/-- One entry of `self.messages`: a user dict, an assistant dict (with its
`tool_calls` list, `[]` when the key is absent), or a tool-result dict with
its `tool_call_id`. -/
inductive Msg where
  | user (content : String)
  | assistant (content : String) (tool_calls : List ToolCall)
  | tool (tool_call_id : String) (content : String)
deriving DecidableEq, Repr

/-- Dict lookup `TOOLS[name]` on an association list of handlers, also used
for the membership test `name not in TOOLS`. -/
def lookupHandler (hs : List (String × Handler)) (name : String) : Option Handler :=
  match hs with
  | [] => none
  | (n, h) :: rest => if n = name then some h else lookupHandler rest name

/-- Embeds `execute_tool` (agent.py lines 263-272): unknown names yield the
textual unknown-tool message, a handler exception is caught and converted to
a marker-prefixed error message, and otherwise the handler result is returned
verbatim.  The function is total: no exception escapes. -/
def execute_tool (handlers : List (String × Handler)) (name : String)
    (arguments : Args) : String :=
  match lookupHandler handlers name with
  | none => "错误: 未知工具 " ++ name
  | some func =>
    match func arguments with
    | Except.ok r => r
    | Except.error e => "工具执行错误: " ++ e

/-- The static `TOOLS` table of agent.py lines 192-223, restricted to the
data the schema export consumes: name, description, and the ordered
parameter schema (parameter name, type string; a trailing `?` marks the
parameter optional).  Handlers are dropped here; they are modelled
separately as `Handler`s. -/
def TOOLS : List (String × String × List (String × String)) :=
  [("read", ("Read file with line numbers (file path, not directory)",
     [("path", "string"), ("offset", "number?"), ("limit", "number?")])),
   ("write", ("Write content to file",
     [("path", "string"), ("content", "string")])),
   ("edit", ("Replace old with new in file (old must be unique unless all=true)",
     [("path", "string"), ("old", "string"), ("new", "string"), ("all", "boolean?")])),
   ("glob", ("Find files by pattern, sorted by mtime",
     [("pat", "string"), ("path", "string?")])),
   ("grep", ("Search files for regex pattern",
     [("pat", "string"), ("path", "string?")])),
   ("bash", ("Run shell command",
     [("cmd", "string")]))]

/-- The OpenAI-format schema object produced for one tool (the
`function` part of the dict built by `build_openai_tools`): properties as an
ordered name/type list, plus the `required` name list. -/
structure OpenAITool where
  name : String
  description : String
  properties : List (String × String)
  required : List String
deriving DecidableEq, Repr

/-- Python `param_type.endswith("?")`, computed on the character list. -/
def endsWithQ (s : String) : Bool := s.toList.getLast? == some '?'

/-- Python `param_type[:-1]`: the string without its final character. -/
def dropLastChar (s : String) : String := String.mk s.toList.dropLast

/-- Embeds `build_openai_tools` (agent.py lines 226-260): for each tool,
parameters not marked with a trailing `?` are appended to `required`; the
(stripped) type is mapped to a JSON-schema property when it is one of
`string`/`number`/`boolean`. -/
def build_openai_tools : List OpenAITool :=
  TOOLS.map (fun t =>
    let pr := t.2.2.foldl
      (fun (acc : List (String × String) × List String) p =>
        let required := if endsWithQ p.2 then acc.2 else acc.2 ++ [p.1]
        let param_type := if endsWithQ p.2 then dropLastChar p.2 else p.2
        let properties :=
          if param_type = "string" then acc.1 ++ [(p.1, "string")]
          else if param_type = "number" then acc.1 ++ [(p.1, "number")]
          else if param_type = "boolean" then acc.1 ++ [(p.1, "boolean")]
          else acc.1
        (properties, required))
      ([], [])
    ⟨t.1, t.2.1, pr.1, pr.2⟩)

/-- Python `str.rstrip()` on one line (trailing-whitespace removal). -/
def rstrip (s : String) : String :=
  String.mk ((s.toList.reverse.dropWhile Char.isWhitespace).reverse)

/-- Python `f"\x7bi:4d\x7d"`: decimal rendering right-aligned in width 4. -/
def fmt4 (i : Nat) : String :=
  let s := toString i
  if s.length < 4 then String.mk (List.replicate (4 - s.length) ' ') ++ s else s

/-- The `for i, line in enumerate(lines, line_num_start)` body of `read`:
each line becomes `f"\x7bi:4d\x7d | \x7bline.rstrip()\x7d"`. -/
def numberLines (line_num_start : Nat) (lines : List String) : List String :=
  (List.enumFrom line_num_start lines).map (fun p => fmt4 p.1 ++ " | " ++ rstrip p.2)

/-- Python slice end index `lines[start:end]` for a possibly negative `end`:
negative values count from the end of the list, and the result is clamped to
`[0, len]`. -/
def pySliceEnd (len : Nat) (e : Int) : Nat :=
  if e < 0 then ((len : Int) + e).toNat else min len e.toNat

/-- Embeds the `read` tool (agent.py lines 51-68) after the file has been
split into `lines` (the I/O part, `open`/`readlines`, is outside the model).
`offset`/`limit` are the optional JSON number arguments.  When `offset` is
given, `start = max(0, offset-1)`, the slice ends at
`len(lines)` or `min(len(lines), start+limit)`, and numbering starts at
`start+1`; when `offset` is `None`, the whole list is numbered from 1. -/
def read (lines : List String) (offset limit : Option Int) : String :=
  let sl : List String × Nat :=
    match offset with
    | some o =>
      let start : Nat := (max 0 (o - 1)).toNat
      let e : Int :=
        match limit with
        | none => (lines.length : Int)
        | some lim => min (lines.length : Int) ((start : Int) + lim)
      (((lines.take (pySliceEnd lines.length e))).drop start, start + 1)
    | none => (lines, 1)
  let result := numberLines sl.2 sl.1
  if result.isEmpty then "(空文件)" else String.intercalate "\n" result

/-- The fixed advisory message returned when the iteration ceiling is hit
(agent.py line 384). -/
def limit_message : String := "达到最大迭代次数，请简化您的请求。"

/-- One iteration of the inner `for tool_call in message.tool_calls` body
(agent.py lines 359-380): parse the raw arguments (`json.loads`, modelled by
the `parse` oracle; a decode failure yields the empty dict), run
`execute_tool`, and produce the appended tool message together with the
truncated display string printed to the console. -/
def dispatchCall (handlers : List (String × Handler)) (parse : String → Option Args)
    (tc : ToolCall) : Msg × String :=
  let tool_args := (parse tc.arguments).getD []
  let result := execute_tool handlers tc.name tool_args
  let display_result := if result.length > 500 then result.take 500 ++ "..." else result
  (Msg.tool tc.id result, display_result)

/-- The whole inner `for` loop: each call appends its tool-result message to
`self.messages`, one at a time, in request order. -/
def dispatchCalls (handlers : List (String × Handler)) (parse : String → Option Args)
    (calls : List ToolCall) (msgs : List Msg) : List Msg :=
  calls.foldl (fun acc tc => acc ++ [(dispatchCall handlers parse tc).1]) msgs

/-- The map form of one dispatch round: the block of tool-result messages
generated for a request list. -/
def toolResults (handlers : List (String × Handler)) (parse : String → Option Args)
    (calls : List ToolCall) : List Msg :=
  calls.map (fun tc => (dispatchCall handlers parse tc).1)

/-- Embeds the `for iteration in range(max_iterations)` loop of
`ToolAgent.chat` (agent.py lines 318-384).  `j` counts completed model
invocations (and indexes the oracle); the result triple is the final
`self.messages`, the returned string, and the total number of model
invocations performed. -/
def chatIter (oracle : Nat → ModelResponse) (handlers : List (String × Handler))
    (parse : String → Option Args) : Nat → Nat → List Msg → List Msg × String × Nat
  | 0, j, msgs => (msgs, limit_message, j)
  | fuel + 1, j, msgs =>
    let message := oracle j
    if message.tool_calls = [] then
      (msgs ++ [Msg.assistant message.content []], message.content, j + 1)
    else
      chatIter oracle handlers parse fuel (j + 1)
        (dispatchCalls handlers parse message.tool_calls
          (msgs ++ [Msg.assistant message.content message.tool_calls]))

/-- Embeds `ToolAgent.chat` (agent.py lines 308-384): append the user turn,
then run up to `max_iterations = 10` rounds of model call / tool dispatch. -/
def chat (oracle : Nat → ModelResponse) (handlers : List (String × Handler))
    (parse : String → Option Args) (messages : List Msg) (user_input : String) :
    List Msg × String × Nat :=
  chatIter oracle handlers parse 10 0 (messages ++ [Msg.user user_input])

/-- The transcript appended by `fuel` consecutive all-tool-call rounds
starting at model invocation `j`: per round, the assistant tool-call turn
followed by its tool-result turns. -/
def chatTrace (oracle : Nat → ModelResponse) (handlers : List (String × Handler))
    (parse : String → Option Args) : Nat → Nat → List Msg
  | 0, _ => []
  | fuel + 1, j =>
    (Msg.assistant (oracle j).content (oracle j).tool_calls
      :: toolResults handlers parse (oracle j).tool_calls)
      ++ chatTrace oracle handlers parse fuel (j + 1)

/-- Embeds `ToolAgent.clear_history` (agent.py lines 386-389): the message
list becomes empty. -/
def clear_history (_messages : List Msg) : List Msg := []

/-- The spec's `snapshot()`: the read-only view of the conversation state,
which in the source is just `self.messages` itself. -/
def snapshot (messages : List Msg) : List Msg := messages

/-! Concrete fixtures used by the witness theorems. -/

/-- A 501-character tool result, long enough to trigger display truncation. -/
def bigResult : String := String.mk (List.replicate 501 'a')

/-- A handler that always raises (returns an error description). -/
def boomHandler : Handler := fun _ => Except.error "boom failed"

/-- A handler whose result exceeds the display-truncation length. -/
def bigHandler : Handler := fun _ => Except.ok bigResult

/-- A small concrete handler table. -/
def handlersW : List (String × Handler) :=
  [("read", fun _ => Except.ok "   1 | hello"), ("boom", boomHandler), ("big", bigHandler)]

/-- A JSON parser oracle on which every payload is malformed. -/
def parseW : String → Option Args := fun _ => none

/-- A concrete tool-call request. -/
def tcA : ToolCall := ⟨"call_1", "read", "not json"⟩

/-- A second concrete tool-call request, to a nonexistent tool. -/
def tcB : ToolCall := ⟨"call_2", "missing", "also not json"⟩

/-- A concrete tool-call request to the long-result tool. -/
def tcBig : ToolCall := ⟨"call_3", "big", "bad payload"⟩

/-- A model oracle whose every response carries two tool-call requests. -/
def oracleW : Nat → ModelResponse := fun _ => ⟨"", [tcA, tcB]⟩

/-! Helper lemmas about the dispatch loop. -/

/-- The one-at-a-time appends of the inner dispatch loop amount to appending
the block of tool-result messages. -/
theorem dispatchCalls_eq_append (handlers : List (String × Handler))
    (parse : String → Option Args) (calls : List ToolCall) (msgs : List Msg) :
    dispatchCalls handlers parse calls msgs = msgs ++ toolResults handlers parse calls := by
  induction calls generalizing msgs with
  | nil => simp [dispatchCalls, toolResults]
  | cons tc rest ih =>
    have h := ih (msgs ++ [(dispatchCall handlers parse tc).1])
    simp only [dispatchCalls, toolResults, List.foldl_cons, List.map_cons] at h ⊢
    rw [h]
    simp

/-- Running the loop with every response carrying tool calls consumes all the
fuel, appends the full transcript, and returns the advisory message. -/
theorem chatIter_all_tools (oracle : Nat → ModelResponse)
    (handlers : List (String × Handler)) (parse : String → Option Args) :
    ∀ (fuel j : Nat) (msgs : List Msg),
      (∀ i, i < fuel → (oracle (j + i)).tool_calls ≠ []) →
      chatIter oracle handlers parse fuel j msgs =
        (msgs ++ chatTrace oracle handlers parse fuel j, limit_message, j + fuel) := by
  intro fuel
  induction fuel with
  | zero => intro j msgs _; simp [chatIter, chatTrace]
  | succ fuel ih =>
    intro j msgs h
    have h0 : ¬ (oracle j).tool_calls = [] := by
      have := h 0 (Nat.succ_pos _); simpa using this
    have hrest : ∀ i, i < fuel → (oracle (j + 1 + i)).tool_calls ≠ [] := by
      intro i hi
      have := h (i + 1) (by omega)
      have harg : j + (i + 1) = j + 1 + i := by omega
      rw [harg] at this
      exact this
    rw [chatIter]
    simp only [if_neg h0]
    rw [dispatchCalls_eq_append, ih (j + 1) _ hrest, chatTrace]
    have hc : j + 1 + fuel = j + (fuel + 1) := by omega
    rw [hc]
    simp

/-- Claim C3: for every tool name not present in the registry and every
argument dictionary, dispatch returns the textual unknown-tool message (and,
being a total function, never raises). -/
theorem unknown_tool_returns_message (handlers : List (String × Handler))
    (name : String) (arguments : Args) (h : lookupHandler handlers name = none) :
    execute_tool handlers name arguments = "错误: 未知工具 " ++ name := by
  simp [execute_tool, h]

theorem unknown_tool_returns_message_witness :
    execute_tool handlersW "delete_universe" [] = "错误: 未知工具 " ++ "delete_universe" :=
  unknown_tool_returns_message handlersW "delete_universe" [] rfl

/-- Claim C4: for every registered tool whose handler raises, dispatch
catches the exception and returns the marker-prefixed error message embedding
the original description; no exception escapes. -/
theorem handler_error_captured (handlers : List (String × Handler)) (name : String)
    (func : Handler) (arguments : Args) (e : String)
    (h1 : lookupHandler handlers name = some func)
    (h2 : func arguments = Except.error e) :
    execute_tool handlers name arguments = "工具执行错误: " ++ e := by
  simp [execute_tool, h1, h2]

theorem handler_error_captured_witness :
    execute_tool handlersW "boom" [] = "工具执行错误: " ++ "boom failed" :=
  handler_error_captured handlersW "boom" boomHandler [] "boom failed" rfl rfl

/-- Claim C9: for every conversation state, reset followed by snapshot yields
the empty sequence of turns. -/
theorem clear_then_snapshot_empty (messages : List Msg) :
    snapshot (clear_history messages) = [] := rfl

/-- Claim C10: in the `read` tool, when `offset` is omitted the `limit`
argument is ignored entirely — the result equals the no-limit result, namely
the whole file numbered from line 1. -/
theorem read_ignores_limit_without_offset (lines : List String) (lim : Int) :
    read lines none (some lim) = read lines none none ∧
    read lines none (some lim) =
      (if lines.isEmpty then "(空文件)"
       else String.intercalate "\n" (numberLines 1 lines)) := by
  refine ⟨rfl, ?_⟩
  cases lines with
  | nil => rfl
  | cons a as => simp [read, numberLines, List.enumFrom]

/-- Claim C1: when every model response of a user turn carries at least one
tool-call request, the chat loop performs exactly 10 model invocations and
returns the fixed iteration-limit advisory message. -/
theorem iteration_limit_exact_ten (oracle : Nat → ModelResponse)
    (handlers : List (String × Handler)) (parse : String → Option Args)
    (messages : List Msg) (user_input : String)
    (h : ∀ i, i < 10 → (oracle i).tool_calls ≠ []) :
    (chat oracle handlers parse messages user_input).2.1 = limit_message ∧
    (chat oracle handlers parse messages user_input).2.2 = 10 := by
  have hall : ∀ i, i < 10 → (oracle (0 + i)).tool_calls ≠ [] := by simpa using h
  have := chatIter_all_tools oracle handlers parse 10 0
    (messages ++ [Msg.user user_input]) hall
  rw [chat, this]
  exact ⟨rfl, rfl⟩

theorem iteration_limit_exact_ten_witness :
    (chat oracleW handlersW parseW [] "hi").2.1 = limit_message ∧
    (chat oracleW handlersW parseW [] "hi").2.2 = 10 :=
  iteration_limit_exact_ten oracleW handlersW parseW [] "hi" (by decide)

/-- Claim C8: when the iteration ceiling is reached, the loop returns the
fixed advisory message and the final conversation state is the prior state
plus the user turn plus every assistant/tool-result turn appended during the
aborted user turn — nothing is rolled back. -/
theorem limit_reached_history_retained (oracle : Nat → ModelResponse)
    (handlers : List (String × Handler)) (parse : String → Option Args)
    (messages : List Msg) (user_input : String)
    (h : ∀ i, i < 10 → (oracle i).tool_calls ≠ []) :
    chat oracle handlers parse messages user_input =
      ((messages ++ [Msg.user user_input]) ++ chatTrace oracle handlers parse 10 0,
        limit_message, 10) := by
  have hall : ∀ i, i < 10 → (oracle (0 + i)).tool_calls ≠ [] := by simpa using h
  have := chatIter_all_tools oracle handlers parse 10 0
    (messages ++ [Msg.user user_input]) hall
  rw [chat, this]

theorem limit_reached_history_retained_witness :
    chat oracleW handlersW parseW [] "hi" =
      (([] ++ [Msg.user "hi"]) ++ chatTrace oracleW handlersW parseW 10 0,
        limit_message, 10) :=
  limit_reached_history_retained oracleW handlersW parseW [] "hi" (by decide)

/-- Claim C2: an assistant turn carrying N tool-call requests is followed,
before the next model invocation, by exactly N tool-result turns, in request
order, each carrying the id of its originating request. -/
theorem tool_results_match_requests (oracle : Nat → ModelResponse)
    (handlers : List (String × Handler)) (parse : String → Option Args)
    (fuel j : Nat) (msgs : List Msg) (h : (oracle j).tool_calls ≠ []) :
    chatIter oracle handlers parse (fuel + 1) j msgs =
      chatIter oracle handlers parse fuel (j + 1)
        ((msgs ++ [Msg.assistant (oracle j).content (oracle j).tool_calls])
          ++ toolResults handlers parse (oracle j).tool_calls) ∧
    (toolResults handlers parse (oracle j).tool_calls).length =
      (oracle j).tool_calls.length ∧
    (∀ (k : Nat) (req : ToolCall), (oracle j).tool_calls[k]? = some req →
      (toolResults handlers parse (oracle j).tool_calls)[k]? =
        some (Msg.tool req.id
          (execute_tool handlers req.name ((parse req.arguments).getD [])))) := by
  refine ⟨?_, ?_, ?_⟩
  · rw [chatIter]
    simp only [if_neg h]
    rw [dispatchCalls_eq_append]
  · simp [toolResults]
  · intro k req hk
    simp [toolResults, List.getElem?_map, hk, dispatchCall]

theorem tool_results_match_requests_witness :
    (toolResults handlersW parseW (oracleW 0).tool_calls)[0]? =
      some (Msg.tool tcA.id
        (execute_tool handlersW tcA.name ((parseW tcA.arguments).getD []))) :=
  (tool_results_match_requests oracleW handlersW parseW 0 0 [] (by decide)).2.2 0 tcA rfl

/-- Claim C5: a tool-call request whose raw argument payload fails to parse
is dispatched with the empty argument dictionary — the turn is not aborted,
and the loop proceeds with the remaining requests. -/
theorem malformed_args_empty_dispatch (handlers : List (String × Handler))
    (parse : String → Option Args) (tc : ToolCall) (rest : List ToolCall)
    (msgs : List Msg) (h : parse tc.arguments = none) :
    dispatchCalls handlers parse (tc :: rest) msgs =
      dispatchCalls handlers parse rest
        (msgs ++ [Msg.tool tc.id (execute_tool handlers tc.name [])]) := by
  simp [dispatchCalls, dispatchCall, h]

theorem malformed_args_empty_dispatch_witness :
    dispatchCalls handlersW parseW (tcA :: []) [] =
      dispatchCalls handlersW parseW []
        ([] ++ [Msg.tool tcA.id (execute_tool handlersW tcA.name [])]) :=
  malformed_args_empty_dispatch handlersW parseW tcA [] [] rfl

/-- Claim C7: the tool-result turn stores the full, untruncated dispatch
result even when it exceeds 500 characters; only the displayed string is
truncated to 500 characters plus an ellipsis. -/
theorem stored_result_untruncated (handlers : List (String × Handler))
    (parse : String → Option Args) (tc : ToolCall)
    (h : 500 < (execute_tool handlers tc.name ((parse tc.arguments).getD [])).length) :
    (dispatchCall handlers parse tc).1 =
      Msg.tool tc.id (execute_tool handlers tc.name ((parse tc.arguments).getD [])) ∧
    (dispatchCall handlers parse tc).2 =
      (execute_tool handlers tc.name ((parse tc.arguments).getD [])).take 500
        ++ "..." := by
  refine ⟨rfl, ?_⟩
  simp only [dispatchCall]
  rw [if_pos h]

set_option maxRecDepth 8000 in
theorem stored_result_untruncated_witness :
    (dispatchCall handlersW parseW tcBig).1 =
      Msg.tool tcBig.id
        (execute_tool handlersW tcBig.name ((parseW tcBig.arguments).getD [])) ∧
    (dispatchCall handlersW parseW tcBig).2 =
      (execute_tool handlersW tcBig.name ((parseW tcBig.arguments).getD [])).take 500
        ++ "..." :=
  stored_result_untruncated handlersW parseW tcBig (by decide)

/-- Claim C6: the schema export yields exactly one schema object per
registered tool (with matching names, in order); every parameter whose type
lacks the trailing `?` appears in that tool's required list, and every
parameter with the trailing `?` appears in properties but not in required. -/
theorem schema_export_required_optional :
    build_openai_tools.length = TOOLS.length ∧
    (TOOLS.zip build_openai_tools).all (fun pr =>
      pr.1.1 == pr.2.name &&
      pr.1.2.2.all (fun p =>
        if endsWithQ p.2 then
          (pr.2.properties.map Prod.fst).contains p.1 && !(pr.2.required.contains p.1)
        else pr.2.required.contains p.1)) = true := by
  exact ⟨by decide, by decide⟩

end Agent
